import Mathlib

set_option autoImplicit false

/-!
Shallow embedding of the transfer-safeguard core of the PySequence repository:

* `packages/pysequence-sdk/src/pysequence_sdk/safeguards/daily_limits.py`
  (per-actor daily limit tracker: `DailyLimitTracker`),
* `packages/pysequence-api/src/pysequence_api/safeguards/daily_limits.py`
  (global daily limit tracker: `DailyLimitTracker`),
* `packages/pysequence-bot/src/pysequence_bot/ai/tools.py`
  (account resolver, transfer staging / confirm / cancel handlers),
* `packages/pysequence-bot/src/pysequence_bot/telegram/bot.py`
  (inline-button callback dispatcher with its ownership gate).

Python dicts are modelled as association lists (`alookup` / `aset` / `adel`
mirror `d[k]`, `d[k] = v`, `del d[k]`; insertion order is preserved exactly as
CPython preserves it).  Python floats are modelled as exact fractions
(`PyFloat`), with `round` embedded as round-half-to-even (`pyRound`).  Python
string comparison (`<` on ISO date keys) is embedded as lexicographic
comparison of code points (`pyStrLt`), `str.lower` as ASCII lowering
(`pyLower`), and the `in` substring operator as `pyInChars`.  The wall clock
(`date.today()`, `time.time()`) is passed in as explicit `today` / `cutoff` /
`now` parameters, since the Python code derives those values from the host
clock at each call.
-/

namespace PySequence

/-- Lookup in a Python dict modelled as an association list: `d.get(k)`. -/
def alookup {α : Type} : List (String × α) → String → Option α
  | [], _ => none
  | (k', v) :: rest, k => if k' = k then some v else alookup rest k

/-- Assignment `d[k] = v` on a Python dict: updates the existing key in place
(preserving its position, as CPython does) or appends a new key at the end. -/
def aset {α : Type} : List (String × α) → String → α → List (String × α)
  | [], k, v => [(k, v)]
  | (k', v') :: rest, k, v =>
    if k' = k then (k, v) :: rest else (k', v') :: aset rest k v

/-- Deletion `del d[k]` on a Python dict. -/
def adel {α : Type} (m : List (String × α)) (k : String) : List (String × α) :=
  m.filter (fun p => p.1 != k)

/-- A Python float, modelled as an exact fraction (numerator over denominator).
All concrete values used by the program (amounts, timestamps) are constructed
with a positive denominator. -/
structure PyFloat where
  num : Int
  den : Nat
deriving DecidableEq, Repr

/-- Comparison `a < b` on Python numbers (denominators positive). -/
def PyFloat.lt (a b : PyFloat) : Bool := a.num * b.den < b.num * a.den

/-- Subtraction `a - b` on Python numbers. -/
def PyFloat.sub (a b : PyFloat) : PyFloat :=
  ⟨a.num * b.den - b.num * a.den, a.den * b.den⟩

/-- Multiplication of a Python number by an integer constant (`x * 100`). -/
def PyFloat.mulInt (a : PyFloat) (k : Int) : PyFloat := ⟨a.num * k, a.den⟩

/-- Whether a Python number is `<= 0` (denominator positive). -/
def PyFloat.nonPos (a : PyFloat) : Bool := a.num ≤ 0

/-- Python's built-in `round` on a float: round-half-to-even.  Computed from
the exact fraction via floor division and remainder. -/
def pyRound (q : PyFloat) : Int :=
  let d : Int := q.den
  let f : Int := q.num.fdiv d
  let r : Int := q.num.fmod d
  if 2 * r < d then f
  else if d < 2 * r then f + 1
  else if f % 2 = 0 then f else f + 1

/-- Lexicographic comparison of code-point lists, as Python compares `str`. -/
def strLtChars : List Char → List Char → Bool
  | [], [] => false
  | [], _ :: _ => true
  | _ :: _, [] => false
  | c₁ :: r₁, c₂ :: r₂ =>
    if c₁.toNat < c₂.toNat then true
    else if c₂.toNat < c₁.toNat then false
    else strLtChars r₁ r₂

/-- Python `a < b` on strings (used on ISO date keys by `_prune_old`). -/
def pyStrLt (a b : String) : Bool := strLtChars a.data b.data

/-- ASCII lowering of a single character, as `str.lower` acts on the ASCII
range (account names in this system are ASCII). -/
def pyLowerChar (c : Char) : Char :=
  if 65 ≤ c.toNat ∧ c.toNat ≤ 90 then Char.ofNat (c.toNat + 32) else c

/-- Python `s.lower()`, as a list of code points. -/
def pyLower (s : String) : List Char := s.data.map pyLowerChar

/-- Whether `needle` occurs at the start of `hay` (helper for `pyInChars`). -/
def listPre : List Char → List Char → Bool
  | [], _ => true
  | _ :: _, [] => false
  | c :: cs, d :: ds => if c = d then listPre cs ds else false

/-- Python's substring operator `needle in hay` on code-point lists. -/
def pyInChars (needle hay : List Char) : Bool :=
  (List.range (hay.length + 1)).any (fun i => listPre needle (hay.drop i))

/-- Exceptions that the daily-limit trackers can raise during construction
when the backing file parses to a JSON value of an unexpected shape. -/
inductive PyErr where
  | attributeError
  | typeError
deriving DecidableEq, Repr

/-- One spend entry of the daily-limits ledger:
`{"transfer_id": ..., "amount_cents": ..., "timestamp": ...}`. -/
structure SpendEntry where
  transfer_id : String
  amount_cents : Int
  timestamp : String
deriving DecidableEq, Repr

/-- The value stored under one day key in the daily-limits JSON file: either
the legacy flat list of entries (old API format) or the actor-keyed mapping
(new SDK format).  These are the two shapes the trackers themselves write. -/
inductive DayVal where
  | legacy (entries : List SpendEntry)
  | keyed (m : List (String × List SpendEntry))
deriving DecidableEq, Repr

/-- Whether a day value is in the legacy flat-list shape
(`isinstance(value, list)` in `_migrate`). -/
def DayVal.isLegacy : DayVal → Bool
  | .legacy _ => true
  | .keyed _ => false

/-- The content of the daily-limits backing file: absent, text that is not
valid JSON, a JSON object of day values, or a valid JSON value that is not an
object (e.g. a list or a number). -/
inductive FileContent where
  | absent
  | unparseable
  | parsedDict (d : List (String × DayVal))
  | parsedOther
deriving DecidableEq, Repr

/-- Result of `_load`: `json.loads` yielded a dict (or the fail-open empty
dict), or it yielded some non-dict JSON value. -/
inductive LoadResult where
  | dict (d : List (String × DayVal))
  | nonDict
deriving DecidableEq, Repr

/-- The `_load` method shared by both trackers: a missing file or text that
raises `json.JSONDecodeError` yields the empty dict (logged as a warning in
the source, never raised); otherwise `json.loads`'s value is returned as-is,
whatever its shape. -/
def _load : FileContent → LoadResult
  | .absent => .dict []
  | .unparseable => .dict []
  | .parsedDict d => .dict d
  | .parsedOther => .nonDict

/-- Pruning shared by both trackers (`_prune_old`): drop every key `k` with
`k < cutoff` (Python string comparison), where
`cutoff = (date.today() - timedelta(days=2)).isoformat()`.  Returns the kept
entries and whether anything was removed (which triggers a save). -/
def pruneOld {α : Type} (cutoff : String) (m : List (String × α)) :
    List (String × α) × Bool :=
  (m.filter (fun p => !(pyStrLt p.1 cutoff)), m.any (fun p => pyStrLt p.1 cutoff))

/-- In-memory records of the SDK tracker after `_migrate`: every day maps to
an actor-keyed mapping of entry lists. -/
abbrev Records := List (String × List (String × List SpendEntry))

namespace SdkDailyLimits

/-- The `_GLOBAL_KEY` sentinel used when no `user_id` is given. -/
def _GLOBAL_KEY : String := "__global__"

/-- `DailyLimitTracker._user_key`: `str(user_id)` or the global sentinel. -/
def _user_key : Option Int → String
  | some u => toString u
  | none => _GLOBAL_KEY

/-- The value conversion of `_migrate`: a legacy flat list becomes
`{"__global__": entries}`; keyed values are left unchanged. -/
def migrateVal : DayVal → List (String × List SpendEntry)
  | .legacy es => [(_GLOBAL_KEY, es)]
  | .keyed m => m

/-- `_migrate` applied to every day of the loaded dict (in-place, preserving
key order). -/
def migrateVals (d : List (String × DayVal)) : Records :=
  d.map (fun p => (p.1, migrateVal p.2))

/-- The JSON encoding `_save` writes for the SDK tracker's records: every day
value is in the keyed shape. -/
def encodeRecords (r : Records) : List (String × DayVal) :=
  r.map (fun p => (p.1, DayVal.keyed p.2))

/-- State of an SDK `DailyLimitTracker`: its records, ceiling, and the content
of its backing file. -/
structure TrackerState where
  records : Records
  max_daily_cents : Int
  file : FileContent
deriving DecidableEq, Repr

/-- `DailyLimitTracker.__init__` of the SDK tracker: `_load`, then `_migrate`
(saving if anything was migrated), then `_prune_old` (saving if anything was
pruned).  A backing file parsing to a non-dict JSON value makes
`self._records.items()` in `_migrate` raise `AttributeError`, which the
constructor does not catch. -/
def init (file : FileContent) (max_daily_cents : Int) (cutoff : String) :
    Except PyErr TrackerState :=
  match _load file with
  | .nonDict => .error .attributeError
  | .dict d =>
    let migrated := d.any (fun p => p.2.isLegacy)
    let m := migrateVals d
    let file₁ := if migrated then FileContent.parsedDict (encodeRecords m) else file
    let pr := pruneOld cutoff m
    let file₂ := if pr.2 then FileContent.parsedDict (encodeRecords pr.1) else file₁
    .ok ⟨pr.1, max_daily_cents, file₂⟩

/-- `DailyLimitTracker._total_today`: sum of `amount_cents` over today's
entries for the given user key (0 when today or the key is absent). -/
def _total_today (s : TrackerState) (today user_key : String) : Int :=
  match alookup s.records today with
  | none => 0
  | some m => (((alookup m user_key).getD []).map (fun e => e.amount_cents)).sum

/-- The list of spend entries stored under `records[today][user_key]`
(empty when the day or the key is absent). -/
def entriesFor (s : TrackerState) (today user_key : String) : List SpendEntry :=
  (alookup ((alookup s.records today).getD []) user_key).getD []

/-- `DailyLimitTracker.check`: returns `(allowed, remaining)` with
`remaining = ceiling - used` and `allowed = amount_cents <= remaining`.  The
method body only reads state, so the returned state is the input state. -/
def check (s : TrackerState) (today : String) (amount_cents : Int)
    (user_id : Option Int) : (Bool × Int) × TrackerState :=
  let used := _total_today s today (_user_key user_id)
  let remaining := s.max_daily_cents - used
  ((decide (amount_cents ≤ remaining), remaining), s)

/-- `DailyLimitTracker.record`: appends a spend entry under
`records[today][user_key]` (creating the day and the key as needed) and saves
synchronously. -/
def record (s : TrackerState) (today : String) (amount_cents : Int)
    (transfer_id : String) (user_id : Option Int) (timestamp : String) :
    TrackerState :=
  let user_key := _user_key user_id
  let dayMap := (alookup s.records today).getD []
  let entries := (alookup dayMap user_key).getD []
  let records' :=
    aset s.records today
      (aset dayMap user_key (entries ++ [⟨transfer_id, amount_cents, timestamp⟩]))
  ⟨records', s.max_daily_cents, FileContent.parsedDict (encodeRecords records')⟩

end SdkDailyLimits

namespace ApiDailyLimits

/-- State of the API `DailyLimitTracker`: its records keep whatever shape the
file held (the flat list is this tracker's native format; there is no
migration step), plus the ceiling and the backing file content. -/
structure TrackerState where
  records : List (String × DayVal)
  max_daily_cents : Int
  file : FileContent
deriving DecidableEq, Repr

/-- `DailyLimitTracker.__init__` of the API tracker: `_load` then
`_prune_old` (saving if anything was pruned).  There is no migration step.  A
non-dict JSON value makes the first dict operation raise (modelled as a
construction-time `TypeError`). -/
def init (file : FileContent) (max_daily_cents : Int) (cutoff : String) :
    Except PyErr TrackerState :=
  match _load file with
  | .nonDict => .error .typeError
  | .dict d =>
    let pr := pruneOld cutoff d
    .ok ⟨pr.1, max_daily_cents,
      if pr.2 then FileContent.parsedDict pr.1 else file⟩

end ApiDailyLimits

/-- An account as returned by the remote platform client
(`client.get_all_accounts`): a pod or a port with its balance in cents and a
formatted display string. -/
structure Account where
  id : String
  name : String
  balance_cents : Int
  balance : String
deriving DecidableEq, Repr

/-- The `"type"` tag of a resolved account: `"POD"` or `"PORT"`. -/
inductive AcctType where
  | POD
  | PORT
deriving DecidableEq, Repr

/-- The dict `_find_account_by_name` builds for a resolved account. -/
structure ResolvedAccount where
  id : String
  name : String
  type : AcctType
  balance_cents : Int
  balance : String
deriving DecidableEq, Repr

/-- `_suggest_pods` from `tools.py`: a suggestion suffix computed from the
case-insensitive substring matches among the PODS only — either an
enumeration of the matching pod names, or a hint to list all pods. -/
def _suggest_pods (name : String) (pods : List Account) : String :=
  let substring_matches :=
    pods.filter (fun p => pyInChars (pyLower name) (pyLower p.name))
  if substring_matches.isEmpty then
    " Try using get_all_pods to see available pods."
  else
    " Did you mean: " ++
      String.intercalate ", " (substring_matches.map (fun p => p.name)) ++ "?"

/-- `_find_account_by_name` from `tools.py`: first a case-insensitive exact
match over pods then ports; failing that, the unique case-insensitive
substring match over pods and ports together; `none` when there are zero or
two or more substring matches. -/
def _find_account_by_name (name : String) (pods ports : List Account) :
    Option ResolvedAccount :=
  let name_lower := pyLower name
  match pods.find? (fun p => pyLower p.name == name_lower) with
  | some p => some ⟨p.id, p.name, .POD, p.balance_cents, p.balance⟩
  | none =>
    match ports.find? (fun p => pyLower p.name == name_lower) with
    | some p => some ⟨p.id, p.name, .PORT, p.balance_cents, p.balance⟩
    | none =>
      let all_items :=
        pods.map (fun p => (p, AcctType.POD)) ++
          ports.map (fun p => (p, AcctType.PORT))
      let substring_matches :=
        all_items.filter (fun it => pyInChars name_lower (pyLower it.1.name))
      match substring_matches with
      | [(p, t)] => some ⟨p.id, p.name, t, p.balance_cents, p.balance⟩
      | _ => none

/-- The case-insensitive substring matches over pods and ports together, in
the order `_find_account_by_name` collects them. -/
def accountSubstringMatches (name : String) (pods ports : List Account) :
    List (Account × AcctType) :=
  (pods.map (fun p => (p, AcctType.POD)) ++
      ports.map (fun p => (p, AcctType.PORT))).filter
    (fun it => pyInChars (pyLower name) (pyLower it.1.name))

/-- Python's `f"${x:.2f}"` money formatting: the amount rounded to cents with
round-half-to-even, printed with two decimals (the staged amounts are
positive). -/
def pyFormatMoney (q : PyFloat) : String :=
  let c := pyRound (q.mulInt 100)
  let a := c.natAbs
  let cents := a % 100
  (if c < 0 then "-$" else "$") ++ toString (a / 100) ++ "." ++
    (if cents < 10 then "0" else "") ++ toString cents

/-- A staged pending transfer, as `_handle_request_transfer` stores it in the
in-process `pending_transfers` dict.  The `note` key is present only when the
note string is non-empty. -/
structure PendingTransfer where
  source_id : String
  source_name : String
  source_type : AcctType
  destination_id : String
  destination_name : String
  destination_type : AcctType
  amount_cents : Int
  amount_display : String
  created_at : PyFloat
  user_id : Option Int
  note : Option String
deriving DecidableEq, Repr

/-- The in-process pending-transfer table: transfer id to pending transfer. -/
abbrev PendingMap := List (String × PendingTransfer)

/-- The relevant fields of `AgentConfig` from `pysequence_bot/config.py`. -/
structure AgentConfig where
  max_transfer_amount_cents : Int
  max_daily_transfer_cents : Int
  pending_transfer_ttl : PyFloat
deriving DecidableEq, Repr

/-- The JSON value supplied for `amount_dollars` in a tool call: either a
number or some non-numeric value (`isinstance(amount_dollars, (int, float))`
fails on the latter). -/
inductive AmountInput where
  | num (q : PyFloat)
  | nonNum
deriving DecidableEq, Repr

/-- The error cases of `_handle_request_transfer`, one per `return
json.dumps({"error": ...})` site, in source order.  The formatted message
strings are elided except for the resolver suggestions, which the claims
inspect. -/
inductive StageError where
  | noteTooLong (length : Nat)
  | notPositive
  | overPerTransferCap
  | overDailyLimit (remaining : Int)
  | sourceNotFound (suggestion : String)
  | destinationNotFound (suggestion : String)
  | insufficientBalance (available : String)
deriving DecidableEq, Repr

/-- The result `_handle_request_transfer` serializes to JSON: a structured
error, or the staged-confirmation payload. -/
inductive StageResult where
  | err (e : StageError)
  | staged (pending_transfer_id source destination amount : String)
      (note : Option String)
deriving DecidableEq, Repr

/-- Whether a stage result is an error payload. -/
def StageResult.isErr : StageResult → Bool
  | .err _ => true
  | .staged _ _ _ _ _ => false

/-- The daily-limit guard shared by `_handle_request_transfer` (which runs it
only when both a tracker and a user id are present) and `_handle_callback`
(whose caller id is always present): `none` when the check passes or is
skipped, `some remaining` when the tracker rejects the amount. -/
def dailyLimitBlock (daily_limits : Option SdkDailyLimits.TrackerState)
    (today : String) (amount_cents : Int) (user_id : Option Int) : Option Int :=
  match daily_limits, user_id with
  | some dl, some u =>
    let res := (SdkDailyLimits.check dl today amount_cents (some u)).1
    if res.1 then none else some res.2
  | _, _ => none

/-- `_handle_request_transfer` from `tools.py`.  The remote account fetch is
passed in as the `pods` / `ports` lists; the fresh `uuid4` id, today's date
and `time.time()` are explicit parameters.  Source order of the checks: note
length, amount is a positive number, per-transfer cap, daily limit (only when
both a tracker and a user id are present), source resolution, destination
resolution, balance; only then is the pending entry stored.  The
`staged_this_turn` bookkeeping list and the `transfer_staged` audit event of
the success path are not modelled. -/
def _handle_request_transfer (source_name destination_name : String)
    (amount_dollars : AmountInput) (note : String) (agent_config : AgentConfig)
    (pending_transfers : PendingMap) (pods ports : List Account)
    (daily_limits : Option SdkDailyLimits.TrackerState) (today : String)
    (user_id : Option Int) (transfer_id : String) (now : PyFloat) :
    StageResult × PendingMap :=
  if 100 < note.length then
    (.err (.noteTooLong note.length), pending_transfers)
  else
    match amount_dollars with
    | .nonNum => (.err .notPositive, pending_transfers)
    | .num q =>
      if q.nonPos then (.err .notPositive, pending_transfers)
      else
        let amount_cents := pyRound (q.mulInt 100)
        if agent_config.max_transfer_amount_cents < amount_cents then
          (.err .overPerTransferCap, pending_transfers)
        else
          match dailyLimitBlock daily_limits today amount_cents user_id with
          | some remaining => (.err (.overDailyLimit remaining), pending_transfers)
          | none =>
            match _find_account_by_name source_name pods ports with
            | none =>
              (.err (.sourceNotFound (_suggest_pods source_name pods)),
               pending_transfers)
            | some source =>
              match _find_account_by_name destination_name pods ports with
              | none =>
                (.err (.destinationNotFound (_suggest_pods destination_name pods)),
                 pending_transfers)
              | some destination =>
                if source.balance_cents < amount_cents then
                  (.err (.insufficientBalance source.balance), pending_transfers)
                else
                  let pending : PendingTransfer :=
                    ⟨source.id, source.name, source.type, destination.id,
                     destination.name, destination.type, amount_cents,
                     pyFormatMoney q, now, user_id,
                     if note = "" then none else some note⟩
                  (.staged transfer_id source.name destination.name
                     (pyFormatMoney q) (if note = "" then none else some note),
                   aset pending_transfers transfer_id pending)

/-- The result `_handle_confirm_transfer` serializes: an error message, or the
success payload built from the stored transfer's fields. -/
inductive ConfirmResult where
  | err (message : String)
  | success (source destination amount : String)
deriving DecidableEq, Repr

/-- `_handle_confirm_transfer` from `tools.py`: unknown id is a "not found"
error with no state change; a known id past its TTL is removed and reported
expired; otherwise the remote transfer call runs (its outcome is the `remote`
parameter: a `RuntimeError` message or success) and the entry is removed in
either case.  This handler performs no ownership check. -/
def _handle_confirm_transfer (pending_transfer_id : String)
    (pending_transfers : PendingMap) (agent_config : AgentConfig)
    (now : PyFloat) (remote : Except String Unit) :
    ConfirmResult × PendingMap :=
  match alookup pending_transfers pending_transfer_id with
  | none => (.err "No pending transfer found with that ID.", pending_transfers)
  | some transfer =>
    if agent_config.pending_transfer_ttl.lt (now.sub transfer.created_at) then
      (.err "This transfer has expired. Please request a new transfer.",
       adel pending_transfers pending_transfer_id)
    else
      match remote with
      | .error e => (.err e, adel pending_transfers pending_transfer_id)
      | .ok _ =>
        (.success transfer.source_name transfer.destination_name
           transfer.amount_display,
         adel pending_transfers pending_transfer_id)

/-- The result `_handle_cancel_transfer` serializes. -/
inductive CancelResult where
  | err (message : String)
  | success (cancelled : String)
deriving DecidableEq, Repr

/-- `_handle_cancel_transfer` from `tools.py`: unknown id is a "not found"
error; a caller id and a stored owner id that are both present and different
is an ownership error, returned before the audit write and the deletion;
otherwise the entry is removed, a `transfer_cancelled` audit event is written
(the third component lists the audit event types emitted), and success is
returned. -/
def _handle_cancel_transfer (pending_transfer_id : String)
    (pending_transfers : PendingMap) (user_id : Option Int) :
    CancelResult × PendingMap × List String :=
  match alookup pending_transfers pending_transfer_id with
  | none => (.err "No pending transfer found with that ID.", pending_transfers, [])
  | some transfer =>
    match user_id, transfer.user_id with
    | some u, some owner =>
      if owner ≠ u then
        (.err "You can only cancel your own transfers.", pending_transfers, [])
      else
        (.success pending_transfer_id, adel pending_transfers pending_transfer_id,
         ["transfer_cancelled"])
    | _, _ =>
      (.success pending_transfer_id, adel pending_transfers pending_transfer_id,
       ["transfer_cancelled"])

/-- The message `_handle_callback` in `bot.py` surfaces for a button press. -/
inductive CallbackResult where
  | staleMessage
  | ownershipAlert
  | cancelledMessage
  | expiredMessage
  | dailyLimitMessage (remaining : Int)
  | failedMessage (error : String)
  | completeMessage (amount source destination : String)
  | noAction
deriving DecidableEq, Repr

/-- `_handle_callback` from `telegram/bot.py`, the only path through which a
confirm is invoked by an identified actor: unknown id is a stale-message
reply; a stored owner differing from the pressing user is an ownership alert
with no state change; `cancel` removes the entry and logs
`transfer_cancelled`; `confirm` checks the TTL (removing and logging
`transfer_expired` when elapsed), then the daily limit for the pressing user,
then delegates to `_handle_confirm_transfer` (the clock is read once here,
so the same `now` is passed down), records the spend into the tracker on
success and logs `transfer_confirmed`, or logs `transfer_failed` on a remote
error.  Returns the reply, the pending table, the tracker, and the audit
event types emitted. -/
def _handle_callback (action transfer_id : String) (pending : PendingMap)
    (caller_id : Int) (agent_config : AgentConfig) (now : PyFloat)
    (daily_limits : Option SdkDailyLimits.TrackerState) (today : String)
    (remote : Except String Unit) (timestamp : String) :
    CallbackResult × PendingMap × Option SdkDailyLimits.TrackerState × List String :=
  match alookup pending transfer_id with
  | none => (.staleMessage, pending, daily_limits, [])
  | some transfer =>
    if (match transfer.user_id with
        | some owner => owner != caller_id
        | none => false) then
      (.ownershipAlert, pending, daily_limits, [])
    else if action = "cancel" then
      (.cancelledMessage, adel pending transfer_id, daily_limits,
       ["transfer_cancelled"])
    else if action = "confirm" then
      if agent_config.pending_transfer_ttl.lt (now.sub transfer.created_at) then
        (.expiredMessage, adel pending transfer_id, daily_limits,
         ["transfer_expired"])
      else
        match dailyLimitBlock daily_limits today transfer.amount_cents
            (some caller_id) with
        | some remaining => (.dailyLimitMessage remaining, pending, daily_limits, [])
        | none =>
          match _handle_confirm_transfer transfer_id pending agent_config now
              remote with
          | (.err e, p') => (.failedMessage e, p', daily_limits, ["transfer_failed"])
          | (.success s d a, p') =>
            (.completeMessage a s d, p',
             daily_limits.map (fun dl =>
               SdkDailyLimits.record dl today transfer.amount_cents transfer_id
                 (some caller_id) timestamp),
             ["transfer_confirmed"])
    else (.noAction, pending, daily_limits, [])

/-! Association-list lemmas about the Python-dict operations. -/

theorem alookup_aset_self {α : Type} (m : List (String × α)) (k : String) (v : α) :
    alookup (aset m k v) k = some v := by
  induction m with
  | nil => simp [aset, alookup]
  | cons p rest ih =>
    obtain ⟨k', v'⟩ := p
    by_cases h : k' = k
    · simp [aset, h, alookup]
    · simp [aset, h, alookup, ih]

theorem alookup_aset_ne {α : Type} (m : List (String × α)) {k k' : String} (v : α)
    (h : k' ≠ k) : alookup (aset m k v) k' = alookup m k' := by
  induction m with
  | nil => simp [aset, alookup, Ne.symm h]
  | cons p rest ih =>
    obtain ⟨k₀, v₀⟩ := p
    by_cases h0 : k₀ = k
    · subst h0
      simp [aset, alookup, Ne.symm h]
    · simp [aset, h0, alookup, ih]

theorem alookup_adel_self {α : Type} (m : List (String × α)) (k : String) :
    alookup (adel m k) k = none := by
  unfold adel
  induction m with
  | nil => simp [alookup]
  | cons p rest ih =>
    obtain ⟨k₀, v₀⟩ := p
    by_cases h0 : k₀ = k
    · subst h0
      simpa [List.filter_cons] using ih
    · simpa [List.filter_cons, h0, alookup] using ih

theorem alookup_adel_ne {α : Type} (m : List (String × α)) {k k' : String}
    (h : k' ≠ k) : alookup (adel m k) k' = alookup m k' := by
  unfold adel
  induction m with
  | nil => simp
  | cons p rest ih =>
    obtain ⟨k₀, v₀⟩ := p
    by_cases h0 : k₀ = k
    · subst h0
      simp [List.filter_cons, alookup, Ne.symm h, ih]
    · simp [List.filter_cons, h0, alookup, ih]

theorem alookup_filter_keep {α : Type} (P : String → Bool) (m : List (String × α))
    (k : String) (h : P k = true) :
    alookup (m.filter (fun p => P p.1)) k = alookup m k := by
  induction m with
  | nil => simp
  | cons p rest ih =>
    obtain ⟨k₀, v₀⟩ := p
    by_cases h0 : k₀ = k
    · subst h0
      simp [List.filter_cons, h, alookup]
    · cases hP : P k₀ with
      | true => simp [List.filter_cons, hP, alookup, h0, ih]
      | false => simp [List.filter_cons, hP, alookup, h0, ih]

/-- Pruning never removes a key `k` with `pyStrLt k cutoff = false`. -/
theorem alookup_prune {α : Type} (cutoff : String) (m : List (String × α))
    (k : String) (h : pyStrLt k cutoff = false) :
    alookup (pruneOld cutoff m).1 k = alookup m k := by
  simpa [pruneOld] using
    alookup_filter_keep (fun key => !pyStrLt key cutoff) m k (by simp [h])

/-- Every key surviving `_prune_old` satisfies `¬(k < cutoff)`. -/
theorem prune_keys_kept {α : Type} (cutoff : String) (m : List (String × α)) :
    ∀ p ∈ (pruneOld cutoff m).1, pyStrLt p.1 cutoff = false := by
  intro p hp
  simp only [pruneOld, List.mem_filter, Bool.not_eq_true'] at hp
  exact hp.2

/-- When `_prune_old` removed nothing, the records are unchanged. -/
theorem prune_noop {α : Type} (cutoff : String) (m : List (String × α))
    (h : (pruneOld cutoff m).2 = false) : (pruneOld cutoff m).1 = m := by
  simp only [pruneOld, List.any_eq_false] at h
  simp only [pruneOld]
  exact List.filter_eq_self.mpr (fun p hp => by simp [h p hp])

namespace SdkDailyLimits

/-- `record` leaves the ceiling unchanged. -/
theorem record_max_daily (s : TrackerState) (today : String) (a : Int)
    (tid : String) (uid : Option Int) (ts : String) :
    (record s today a tid uid ts).max_daily_cents = s.max_daily_cents := rfl

/-- `record` appends the new entry under `records[today][user_key]`. -/
theorem entriesFor_record (s : TrackerState) (today : String) (a : Int)
    (tid : String) (uid : Option Int) (ts : String) :
    entriesFor (record s today a tid uid ts) today (_user_key uid) =
      entriesFor s today (_user_key uid) ++ [⟨tid, a, ts⟩] := by
  unfold entriesFor record
  cases hd : alookup s.records today with
  | none => simp [hd, alookup_aset_self]
  | some m =>
    cases he : alookup m (_user_key uid) with
    | none => simp [hd, he, alookup_aset_self]
    | some es => simp [hd, he, alookup_aset_self]

/-- `_total_today` as the sum over `entriesFor`. -/
theorem total_today_eq_entries (s : TrackerState) (today user_key : String) :
    _total_today s today user_key =
      ((entriesFor s today user_key).map (fun e => e.amount_cents)).sum := by
  unfold _total_today entriesFor
  cases hd : alookup s.records today with
  | none => simp [hd, alookup]
  | some m => simp [hd]

/-- One `record` call raises the actor's total for the day by its amount. -/
theorem total_today_record (s : TrackerState) (today : String) (a : Int)
    (tid : String) (uid : Option Int) (ts : String) :
    _total_today (record s today a tid uid ts) today (_user_key uid) =
      _total_today s today (_user_key uid) + a := by
  rw [total_today_eq_entries, total_today_eq_entries, entriesFor_record]
  simp

/-- A fold of `record` calls raises the total by the sum of the amounts. -/
theorem total_today_foldl (today : String) (uid : Option Int)
    (calls : List (Int × String × String)) (s : TrackerState) :
    _total_today
        (calls.foldl (fun st c => record st today c.1 c.2.1 uid c.2.2) s) today
        (_user_key uid) =
      _total_today s today (_user_key uid) + (calls.map (fun c => c.1)).sum := by
  induction calls generalizing s with
  | nil => simp
  | cons c rest ih =>
    simp only [List.foldl_cons, List.map_cons, List.sum_cons]
    rw [ih, total_today_record]
    ring

/-- A fold of `record` calls leaves the ceiling unchanged. -/
theorem max_daily_foldl (today : String) (uid : Option Int)
    (calls : List (Int × String × String)) (s : TrackerState) :
    (calls.foldl (fun st c => record st today c.1 c.2.1 uid c.2.2) s).max_daily_cents
      = s.max_daily_cents := by
  induction calls generalizing s with
  | nil => rfl
  | cons c rest ih => simpa using ih (record s today c.1 c.2.1 uid c.2.2)

end SdkDailyLimits

/-- C1: For a tracker with ceiling `C` and no prior spend for an actor on a
day, after any sequence of `record(a_i, id_i)` calls for that day and actor a
`check(x)` for that actor returns `allowed = (x <= C - sum(a_i))` and
`remaining = C - sum(a_i)` — the remaining value is not clamped at zero — and
`check` leaves the tracker state (records and backing file alike)
unchanged. -/
theorem C1_check_after_records (s : SdkDailyLimits.TrackerState) (today : String)
    (calls : List (Int × String × String)) (x : Int) (uid : Option Int)
    (h0 : SdkDailyLimits._total_today s today (SdkDailyLimits._user_key uid) = 0) :
    SdkDailyLimits.check
        (calls.foldl (fun st c => SdkDailyLimits.record st today c.1 c.2.1 uid c.2.2) s)
        today x uid =
      ((decide (x ≤ s.max_daily_cents - (calls.map (fun c => c.1)).sum),
        s.max_daily_cents - (calls.map (fun c => c.1)).sum),
       calls.foldl (fun st c => SdkDailyLimits.record st today c.1 c.2.1 uid c.2.2) s) := by
  unfold SdkDailyLimits.check
  rw [SdkDailyLimits.total_today_foldl, h0, SdkDailyLimits.max_daily_foldl]
  simp

/-- Witness for C1 at a concrete input: ceiling 10000, a single 8000-cent
record, then `check(5000)` returns `(false, 2000)`. -/
theorem C1_check_after_records_witness :
    SdkDailyLimits._total_today ⟨[], 10000, .absent⟩ "2025-10-12"
        (SdkDailyLimits._user_key none) = 0 ∧
    SdkDailyLimits.check
        ([((8000 : Int), "t1", "ts1")].foldl
          (fun st c => SdkDailyLimits.record st "2025-10-12" c.1 c.2.1 none c.2.2)
          ⟨[], 10000, .absent⟩) "2025-10-12" 5000 none =
      ((false, 2000),
       [((8000 : Int), "t1", "ts1")].foldl
         (fun st c => SdkDailyLimits.record st "2025-10-12" c.1 c.2.1 none c.2.2)
         ⟨[], 10000, .absent⟩) :=
  ⟨by decide,
   by
    have h := C1_check_after_records ⟨[], 10000, .absent⟩ "2025-10-12"
      [((8000 : Int), "t1", "ts1")] 5000 none (by decide)
    simpa using h⟩

/-- C10: `record` does not deduplicate by transfer id — two `record(a, id)`
calls with the same id on the same day for the same actor append two separate
entries, and a subsequent `check` reports the remaining allowance reduced by
`2 * a` relative to the state before the two calls. -/
theorem C10_record_not_idempotent (s : SdkDailyLimits.TrackerState)
    (today : String) (a : Int) (tid : String) (uid : Option Int)
    (ts₁ ts₂ : String) (x : Int) :
    (SdkDailyLimits.check
        (SdkDailyLimits.record (SdkDailyLimits.record s today a tid uid ts₁)
          today a tid uid ts₂) today x uid).1 =
      (decide (x ≤ (SdkDailyLimits.check s today x uid).1.2 - 2 * a),
       (SdkDailyLimits.check s today x uid).1.2 - 2 * a) ∧
    SdkDailyLimits.entriesFor
        (SdkDailyLimits.record (SdkDailyLimits.record s today a tid uid ts₁)
          today a tid uid ts₂) today (SdkDailyLimits._user_key uid) =
      SdkDailyLimits.entriesFor s today (SdkDailyLimits._user_key uid) ++
        [⟨tid, a, ts₁⟩, ⟨tid, a, ts₂⟩] := by
  constructor
  · unfold SdkDailyLimits.check
    rw [SdkDailyLimits.total_today_record, SdkDailyLimits.total_today_record,
      SdkDailyLimits.record_max_daily, SdkDailyLimits.record_max_daily]
    have harith : s.max_daily_cents - (SdkDailyLimits._total_today s today
        (SdkDailyLimits._user_key uid) + a + a) =
        s.max_daily_cents - SdkDailyLimits._total_today s today
          (SdkDailyLimits._user_key uid) - 2 * a := by ring
    simp [harith]
  · rw [SdkDailyLimits.entriesFor_record, SdkDailyLimits.entriesFor_record]
    simp

namespace SdkDailyLimits

/-- Re-reading the keyed encoding `_save` writes gives back the records. -/
theorem migrateVals_encode (r : Records) : migrateVals (encodeRecords r) = r := by
  induction r with
  | nil => rfl
  | cons p rest ih => simp [migrateVals, encodeRecords, migrateVal] at ih ⊢; exact ih

/-- The keyed encoding contains no legacy day value, so `_migrate` on a file
the SDK tracker itself wrote migrates nothing. -/
theorem encode_any_legacy (r : Records) :
    (encodeRecords r).any (fun p => p.2.isLegacy) = false := by
  induction r with
  | nil => rfl
  | cons p rest ih => simp [encodeRecords, DayVal.isLegacy] at ih ⊢; exact ih

/-- `__init__` on a file holding the SDK tracker's own encoding: nothing to
migrate, so only pruning may change state, and the file is rewritten only
when pruning removed something. -/
theorem init_encode (r : Records) (C : Int) (cutoff : String) :
    init (.parsedDict (encodeRecords r)) C cutoff =
      .ok ⟨(pruneOld cutoff r).1, C,
        if (pruneOld cutoff r).2 then
          .parsedDict (encodeRecords (pruneOld cutoff r).1)
        else .parsedDict (encodeRecords r)⟩ := by
  simp [init, _load, migrateVals_encode, encode_any_legacy]

/-- `__init__` on an arbitrary well-shaped JSON object: load, migrate every
legacy day to the keyed form, prune; the final file content depends on which
steps changed anything. -/
theorem init_parsedDict (d : List (String × DayVal)) (C : Int) (cutoff : String) :
    init (.parsedDict d) C cutoff =
      .ok ⟨(pruneOld cutoff (migrateVals d)).1, C,
        if (pruneOld cutoff (migrateVals d)).2 then
          .parsedDict (encodeRecords (pruneOld cutoff (migrateVals d)).1)
        else if d.any (fun p => p.2.isLegacy) then
          .parsedDict (encodeRecords (migrateVals d))
        else .parsedDict d⟩ := by
  by_cases hm : d.any (fun p => p.2.isLegacy) <;>
    by_cases hp : (pruneOld cutoff (migrateVals d)).2 <;>
      simp [init, _load, hm, hp]

/-- `_migrate` rewrites each day value pointwise. -/
theorem alookup_migrateVals (d : List (String × DayVal)) (k : String) :
    alookup (migrateVals d) k = (alookup d k).map migrateVal := by
  induction d with
  | nil => rfl
  | cons p rest ih =>
    obtain ⟨k₀, v₀⟩ := p
    by_cases h0 : k₀ = k
    · simp [migrateVals, alookup, h0]
    · simpa [migrateVals, alookup, h0] using ih

end SdkDailyLimits

/-- C2: Durability round-trip — after `record(a, id)` on a tracker, a fresh
`DailyLimitTracker` constructed from the tracker's backing file with the same
ceiling succeeds and yields the same `check(x)` result for that actor and
day, for every amount `x` (the hypothesis states that today's ISO date key is
not older than the pruning cutoff, which `__init__` computes as today minus 2
days). -/
theorem C2_record_reload_roundtrip (s : SdkDailyLimits.TrackerState)
    (today : String) (a : Int) (tid : String) (uid : Option Int) (ts : String)
    (cutoff : String) (x : Int) (h : pyStrLt today cutoff = false) :
    ∃ s', SdkDailyLimits.init (SdkDailyLimits.record s today a tid uid ts).file
        (SdkDailyLimits.record s today a tid uid ts).max_daily_cents cutoff =
        .ok s' ∧
      (SdkDailyLimits.check s' today x uid).1 =
        (SdkDailyLimits.check (SdkDailyLimits.record s today a tid uid ts)
          today x uid).1 := by
  refine ⟨_, SdkDailyLimits.init_encode
    (SdkDailyLimits.record s today a tid uid ts).records
    (SdkDailyLimits.record s today a tid uid ts).max_daily_cents cutoff, ?_⟩
  unfold SdkDailyLimits.check SdkDailyLimits._total_today
  rw [alookup_prune _ _ _ h]

/-- Witness for C2 at a concrete input: record 8000 cents on 2025-10-12 with
cutoff 2025-10-10, reload, and compare `check(5000)`. -/
theorem C2_record_reload_roundtrip_witness :
    pyStrLt "2025-10-12" "2025-10-10" = false ∧
    ∃ s', SdkDailyLimits.init
        (SdkDailyLimits.record ⟨[], 10000, .absent⟩ "2025-10-12" 8000 "t1" none "ts").file
        (SdkDailyLimits.record ⟨[], 10000, .absent⟩ "2025-10-12" 8000 "t1" none "ts").max_daily_cents
        "2025-10-10" = .ok s' ∧
      (SdkDailyLimits.check s' "2025-10-12" 5000 none).1 =
        (SdkDailyLimits.check
          (SdkDailyLimits.record ⟨[], 10000, .absent⟩ "2025-10-12" 8000 "t1" none "ts")
          "2025-10-12" 5000 none).1 :=
  ⟨by decide,
   C2_record_reload_roundtrip ⟨[], 10000, .absent⟩ "2025-10-12" 8000 "t1" none
     "ts" "2025-10-10" 5000 (by decide)⟩

/-- C3 counterexample: the API `DailyLimitTracker`'s construction performs no
migration — constructed over a recent legacy flat-list day, the records keep
the flat list as-is, which is not the actor-keyed form the claim says every
construction produces. -/
theorem C3_counterexample :
    ApiDailyLimits.init
        (.parsedDict [("2099-01-02", .legacy [⟨"t", 3000, "ts"⟩])]) 10000
        "2099-01-01" =
      .ok ⟨[("2099-01-02", DayVal.legacy [⟨"t", 3000, "ts"⟩])], 10000,
        .parsedDict [("2099-01-02", DayVal.legacy [⟨"t", 3000, "ts"⟩])]⟩ ∧
    DayVal.legacy [⟨"t", 3000, "ts"⟩] ≠
      DayVal.keyed [("__global__", [⟨"t", 3000, "ts"⟩])] :=
  ⟨rfl, by decide⟩

/-- C3 (amended): the SDK tracker's construction migrates legacy flat-list
days into the actor-keyed format under the default/global actor (so they
count toward that actor's subsequent `check`), then prunes day keys older
than the cutoff, and persists the records whenever migration or pruning
changed anything; the API tracker's construction performs no migration (the
flat list is its native format) but prunes the same way.  After either
construction, every surviving day key `k` satisfies `¬(k < cutoff)`. -/
theorem C3_construction_migrates_and_prunes (d : List (String × DayVal))
    (C : Int) (cutoff today : String) (es : List SpendEntry) (x : Int)
    (hleg : alookup d today = some (.legacy es))
    (hkeep : pyStrLt today cutoff = false) :
    (∃ s, SdkDailyLimits.init (.parsedDict d) C cutoff = .ok s ∧
      alookup s.records today = some [(SdkDailyLimits._GLOBAL_KEY, es)] ∧
      (∀ p ∈ s.records, pyStrLt p.1 cutoff = false) ∧
      (SdkDailyLimits.check s today x none).1 =
        (decide (x ≤ C - (es.map (fun e => e.amount_cents)).sum),
         C - (es.map (fun e => e.amount_cents)).sum) ∧
      s.file = .parsedDict (SdkDailyLimits.encodeRecords s.records)) ∧
    (∃ s₂, ApiDailyLimits.init (.parsedDict d) C cutoff = .ok s₂ ∧
      (∀ p ∈ s₂.records, pyStrLt p.1 cutoff = false)) := by
  constructor
  · refine ⟨_, SdkDailyLimits.init_parsedDict d C cutoff, ?_, ?_, ?_, ?_⟩
    · rw [alookup_prune _ _ _ hkeep, SdkDailyLimits.alookup_migrateVals, hleg]
      rfl
    · exact prune_keys_kept cutoff _
    · unfold SdkDailyLimits.check SdkDailyLimits._total_today
      rw [alookup_prune _ _ _ hkeep, SdkDailyLimits.alookup_migrateVals, hleg]
      simp [SdkDailyLimits.migrateVal, alookup, SdkDailyLimits._user_key]
    · have hm : d.any (fun p => p.2.isLegacy) = true := by
        have : (today, DayVal.legacy es) ∈ d := by
          clear hkeep
          induction d with
          | nil => simp [alookup] at hleg
          | cons p rest ih =>
            obtain ⟨k₀, v₀⟩ := p
            by_cases h0 : k₀ = today
            · subst h0
              have hv : v₀ = DayVal.legacy es := by simpa [alookup] using hleg
              simp [hv]
            · simp only [alookup, if_neg h0] at hleg
              exact List.mem_cons_of_mem _ (ih hleg)
        exact List.any_eq_true.mpr ⟨_, this, rfl⟩
      by_cases hp : (pruneOld cutoff (SdkDailyLimits.migrateVals d)).2
      · simp [hm, hp]
      · simp [hm, hp, prune_noop _ _ (by simpa using hp)]
  · exact ⟨_, rfl, prune_keys_kept cutoff _⟩

/-- Witness for C3 at a concrete input: a file holding a recent legacy day
and an old keyed day; construction migrates the former, prunes the latter,
and `check(5000)` on the global actor counts the migrated 3000 cents. -/
theorem C3_construction_migrates_and_prunes_witness :
    alookup [("2099-01-02", DayVal.legacy [⟨"t", 3000, "ts"⟩]),
        ("2000-01-01", DayVal.keyed [("5", [⟨"u", 100, "ts2"⟩])])] "2099-01-02" =
      some (.legacy [⟨"t", 3000, "ts"⟩]) ∧
    pyStrLt "2099-01-02" "2099-01-01" = false ∧
    ((∃ s, SdkDailyLimits.init
        (.parsedDict [("2099-01-02", DayVal.legacy [⟨"t", 3000, "ts"⟩]),
          ("2000-01-01", DayVal.keyed [("5", [⟨"u", 100, "ts2"⟩])])]) 10000
        "2099-01-01" = .ok s ∧
      alookup s.records "2099-01-02" =
        some [(SdkDailyLimits._GLOBAL_KEY, [⟨"t", 3000, "ts"⟩])] ∧
      (∀ p ∈ s.records, pyStrLt p.1 "2099-01-01" = false) ∧
      (SdkDailyLimits.check s "2099-01-02" 5000 none).1 =
        (decide ((5000 : Int) ≤ 10000 -
          ([(⟨"t", 3000, "ts"⟩ : SpendEntry)].map (fun e => e.amount_cents)).sum),
         10000 - ([(⟨"t", 3000, "ts"⟩ : SpendEntry)].map (fun e => e.amount_cents)).sum) ∧
      s.file = .parsedDict (SdkDailyLimits.encodeRecords s.records)) ∧
    (∃ s₂, ApiDailyLimits.init
        (.parsedDict [("2099-01-02", DayVal.legacy [⟨"t", 3000, "ts"⟩]),
          ("2000-01-01", DayVal.keyed [("5", [⟨"u", 100, "ts2"⟩])])]) 10000
        "2099-01-01" = .ok s₂ ∧
      (∀ p ∈ s₂.records, pyStrLt p.1 "2099-01-01" = false))) :=
  ⟨by decide, by decide,
   C3_construction_migrates_and_prunes _ 10000 "2099-01-01" "2099-01-02"
     [⟨"t", 3000, "ts"⟩] 5000 (by decide) (by decide)⟩

/-- C9 counterexample: the fail-open policy does not cover a backing file
whose text is valid JSON of a non-dict shape — `_migrate`'s
`self._records.items()` raises `AttributeError` out of the SDK tracker's
constructor, where the claim says construction succeeds with empty state. -/
theorem C9_counterexample :
    SdkDailyLimits.init .parsedOther 10000 "2025-01-01" =
      .error .attributeError := rfl

/-- C9 (amended): `_load` returns the empty structure when the backing file
is absent or its text is not valid JSON (logged as a warning, not raised),
and construction then succeeds with empty records, an untouched file, and
`check` behaving as with no prior records — for the SDK and the API tracker
alike.  But a file parsing to a non-dict JSON value is not covered by the
fail-open policy: the SDK tracker's construction raises `AttributeError`. -/
theorem C9_fail_open_load (C : Int) (cutoff today : String) (x : Int)
    (uid : Option Int) :
    (SdkDailyLimits.init .absent C cutoff =
      .ok ⟨[], C, .absent⟩ ∧
     (SdkDailyLimits.check ⟨[], C, .absent⟩ today x uid).1 =
       (decide (x ≤ C), C)) ∧
    (SdkDailyLimits.init .unparseable C cutoff =
      .ok ⟨[], C, .unparseable⟩ ∧
     (SdkDailyLimits.check ⟨[], C, .unparseable⟩ today x uid).1 =
       (decide (x ≤ C), C)) ∧
    ApiDailyLimits.init .absent C cutoff = .ok ⟨[], C, .absent⟩ ∧
    ApiDailyLimits.init .unparseable C cutoff = .ok ⟨[], C, .unparseable⟩ ∧
    SdkDailyLimits.init .parsedOther C cutoff = .error .attributeError := by
  refine ⟨⟨rfl, ?_⟩, ⟨rfl, ?_⟩, rfl, rfl, rfl⟩ <;>
    simp [SdkDailyLimits.check, SdkDailyLimits._total_today, alookup]

/-! Arithmetic facts about Python's `round`. -/

/-- Rounding a nonnegative fraction is nonnegative. -/
theorem pyRound_nonneg (q : PyFloat) (hn : 0 ≤ q.num) : 0 ≤ pyRound q := by
  have hf : 0 ≤ q.num.fdiv (q.den : Int) :=
    Int.fdiv_nonneg hn (Int.ofNat_nonneg q.den)
  simp only [pyRound]
  split_ifs <;> omega

/-- Rounding a fraction strictly greater than one half is strictly
positive. -/
theorem pyRound_pos (q : PyFloat) (hden : 0 < (q.den : Int))
    (h : (q.den : Int) < 2 * q.num) : 0 < pyRound q := by
  have hid := Int.fdiv_add_fmod q.num (q.den : Int)
  have hr0 : 0 ≤ q.num.fmod (q.den : Int) := Int.fmod_nonneg' q.num hden
  have hrlt : q.num.fmod (q.den : Int) < (q.den : Int) :=
    Int.fmod_lt_of_pos q.num hden
  have hf : 0 ≤ q.num.fdiv (q.den : Int) :=
    Int.fdiv_nonneg (by omega) (by omega)
  simp only [pyRound]
  split_ifs with h1 h2 h3
  · rcases hf.lt_or_eq with hpos | heq
    · exact hpos
    · exfalso
      rw [← heq, mul_zero, zero_add] at hid
      omega
  · omega
  · rcases hf.lt_or_eq with hpos | heq
    · exact hpos
    · exfalso
      rw [← heq, mul_zero, zero_add] at hid
      omega
  · omega

/-- Every path through `_handle_request_transfer` either returns one of the
error payloads with the pending table unchanged, or stages: the amount was a
positive number, both endpoints resolved, the balance sufficed, and the new
pending entry (with the rounded cents amount) was stored under the fresh
id. -/
theorem requestTransfer_split (source_name destination_name : String)
    (amount_dollars : AmountInput) (note : String) (agent_config : AgentConfig)
    (pending_transfers : PendingMap) (pods ports : List Account)
    (daily_limits : Option SdkDailyLimits.TrackerState) (today : String)
    (user_id : Option Int) (transfer_id : String) (now : PyFloat) :
    ((_handle_request_transfer source_name destination_name amount_dollars note
        agent_config pending_transfers pods ports daily_limits today user_id
        transfer_id now).1.isErr = true ∧
     (_handle_request_transfer source_name destination_name amount_dollars note
        agent_config pending_transfers pods ports daily_limits today user_id
        transfer_id now).2 = pending_transfers) ∨
    (∃ q source destination, amount_dollars = .num q ∧ q.nonPos = false ∧
      _find_account_by_name source_name pods ports = some source ∧
      _find_account_by_name destination_name pods ports = some destination ∧
      _handle_request_transfer source_name destination_name amount_dollars note
          agent_config pending_transfers pods ports daily_limits today user_id
          transfer_id now =
        (.staged transfer_id source.name destination.name (pyFormatMoney q)
           (if note = "" then none else some note),
         aset pending_transfers transfer_id
           ⟨source.id, source.name, source.type, destination.id,
            destination.name, destination.type, pyRound (q.mulInt 100),
            pyFormatMoney q, now, user_id,
            if note = "" then none else some note⟩)) := by
  unfold _handle_request_transfer
  by_cases h1 : 100 < note.length
  · rw [if_pos h1]
    exact Or.inl ⟨rfl, rfl⟩
  · rw [if_neg h1]
    cases amount_dollars with
    | nonNum => exact Or.inl ⟨rfl, rfl⟩
    | num q =>
      dsimp only
      by_cases h2 : q.nonPos = true
      · rw [if_pos h2]
        exact Or.inl ⟨rfl, rfl⟩
      · rw [if_neg h2]
        by_cases h3 :
            agent_config.max_transfer_amount_cents < pyRound (q.mulInt 100)
        · rw [if_pos h3]
          exact Or.inl ⟨rfl, rfl⟩
        · rw [if_neg h3]
          cases hdb : dailyLimitBlock daily_limits today (pyRound (q.mulInt 100))
              user_id with
          | some remaining => exact Or.inl ⟨rfl, rfl⟩
          | none =>
            dsimp only
            cases hsrc : _find_account_by_name source_name pods ports with
            | none => exact Or.inl ⟨rfl, rfl⟩
            | some source =>
              dsimp only
              cases hdst : _find_account_by_name destination_name pods ports with
              | none => exact Or.inl ⟨rfl, rfl⟩
              | some destination =>
                dsimp only
                by_cases h4 : source.balance_cents < pyRound (q.mulInt 100)
                · rw [if_pos h4]
                  exact Or.inl ⟨rfl, rfl⟩
                · rw [if_neg h4]
                  exact Or.inr ⟨q, source, destination, rfl,
                    Bool.not_eq_true _ ▸ h2, rfl, rfl, rfl⟩

/-- C4: Staging atomicity — whenever `_handle_request_transfer` returns an
error payload (note too long, non-positive amount, amount over the
per-transfer ceiling, daily-limit rejection, unresolved source or
destination, or insufficient balance), the pending-transfer table is left
exactly as it was: no pending entry is created.  The handler's result type
itself is the structured error payload the caller receives (no exception);
staging never invokes the remote transfer operation. -/
theorem C4_staging_atomicity (source_name destination_name : String)
    (amount_dollars : AmountInput) (note : String) (agent_config : AgentConfig)
    (pending_transfers : PendingMap) (pods ports : List Account)
    (daily_limits : Option SdkDailyLimits.TrackerState) (today : String)
    (user_id : Option Int) (transfer_id : String) (now : PyFloat)
    (h : (_handle_request_transfer source_name destination_name amount_dollars
        note agent_config pending_transfers pods ports daily_limits today
        user_id transfer_id now).1.isErr = true) :
    (_handle_request_transfer source_name destination_name amount_dollars note
        agent_config pending_transfers pods ports daily_limits today user_id
        transfer_id now).2 = pending_transfers := by
  rcases requestTransfer_split source_name destination_name amount_dollars note
      agent_config pending_transfers pods ports daily_limits today user_id
      transfer_id now with ⟨_, h2⟩ | ⟨q, src, dst, _, _, _, _, heq⟩
  · exact h2
  · rw [heq] at h
    simp [StageResult.isErr] at h

/-- Witness for C4 at a concrete input: a 101-character note is rejected
(over the per-transfer ceiling is exercised by the C8 development) and the
pending table stays empty. -/
theorem C4_staging_atomicity_witness :
    (_handle_request_transfer "Rent" "Groceries" (.num ⟨5000, 1⟩)
        (String.mk (List.replicate 101 'a')) ⟨1000000, 2500000, ⟨300, 1⟩⟩ []
        [] [] none "2025-10-12" none "tid-1" ⟨0, 1⟩).1.isErr = true ∧
    (_handle_request_transfer "Rent" "Groceries" (.num ⟨5000, 1⟩)
        (String.mk (List.replicate 101 'a')) ⟨1000000, 2500000, ⟨300, 1⟩⟩ []
        [] [] none "2025-10-12" none "tid-1" ⟨0, 1⟩).2 = [] :=
  ⟨by decide,
   C4_staging_atomicity "Rent" "Groceries" (.num ⟨5000, 1⟩)
     (String.mk (List.replicate 101 'a')) ⟨1000000, 2500000, ⟨300, 1⟩⟩ []
     [] [] none "2025-10-12" none "tid-1" ⟨0, 1⟩ (by decide)⟩

/-- C8 counterexample: `amount_dollars = 0.001` (the fraction 1/1000) is a
positive number, so it passes validation, but `round(0.001 * 100) = 0`; the
stage succeeds and stores a pending transfer whose `amount_cents` is 0 — not
strictly positive as the claim states. -/
theorem C8_counterexample :
    (alookup (_handle_request_transfer "Rent" "Groceries" (.num ⟨1, 1000⟩) ""
        ⟨1000000, 2500000, ⟨300, 1⟩⟩ []
        [⟨"p1", "Rent", 120000, "$1,200.00"⟩, ⟨"p2", "Groceries", 5000, "$50.00"⟩]
        [] none "2025-10-12" none "tid-1" ⟨1000, 1⟩).2 "tid-1").map
        (fun t => t.amount_cents) = some 0 ∧
    (_handle_request_transfer "Rent" "Groceries" (.num ⟨1, 1000⟩) ""
        ⟨1000000, 2500000, ⟨300, 1⟩⟩ []
        [⟨"p1", "Rent", 120000, "$1,200.00"⟩, ⟨"p2", "Groceries", 5000, "$50.00"⟩]
        [] none "2025-10-12" none "tid-1" ⟨1000, 1⟩).1.isErr = false := by
  exact ⟨by decide, by decide⟩

/-- C8 (amended): every successfully staged pending transfer stores
`amount_cents = round(amount_dollars * 100)` (round-half-to-even, the single
rounding point), and that value is never negative; it is strictly positive
whenever `amount_dollars` exceeds half a cent (`den < 200 * num`), but a
positive `amount_dollars` of half a cent or less stages with
`amount_cents = 0`, so the invariant on stored entries is `amount_cents ≥ 0`
rather than `amount_cents > 0`. -/
theorem C8_staged_amount_rounding (source_name destination_name : String)
    (q : PyFloat) (note : String) (agent_config : AgentConfig)
    (pending_transfers : PendingMap) (pods ports : List Account)
    (daily_limits : Option SdkDailyLimits.TrackerState) (today : String)
    (user_id : Option Int) (transfer_id : String) (now : PyFloat)
    (hden : 0 < q.den)
    (hres : (_handle_request_transfer source_name destination_name (.num q)
        note agent_config pending_transfers pods ports daily_limits today
        user_id transfer_id now).1.isErr = false) :
    ∃ pt, alookup (_handle_request_transfer source_name destination_name
        (.num q) note agent_config pending_transfers pods ports daily_limits
        today user_id transfer_id now).2 transfer_id = some pt ∧
      pt.amount_cents = pyRound (q.mulInt 100) ∧
      0 ≤ pt.amount_cents ∧
      ((q.den : Int) < 200 * q.num → 0 < pt.amount_cents) := by
  rcases requestTransfer_split source_name destination_name (.num q) note
      agent_config pending_transfers pods ports daily_limits today user_id
      transfer_id now with ⟨h1, _⟩ | ⟨q', src, dst, hq, hpos, _, _, heq⟩
  · rw [hres] at h1
    cases h1
  · injection hq with hqq
    subst hqq
    rw [heq]
    have hnum : 0 < q.num := by
      simp [PyFloat.nonPos] at hpos
      omega
    refine ⟨_, alookup_aset_self _ _ _, rfl, ?_, ?_⟩
    · exact pyRound_nonneg (q.mulInt 100) (by simp [PyFloat.mulInt]; positivity)
    · intro hgt
      refine pyRound_pos (q.mulInt 100) ?_ ?_
      · simpa [PyFloat.mulInt] using hden
      · simp only [PyFloat.mulInt]
        omega

/-- Witness for C8 (amended) at a concrete input: staging $50.00 stores
5000 cents, which is nonnegative and strictly positive. -/
theorem C8_staged_amount_rounding_witness :
    (0 < (⟨50, 1⟩ : PyFloat).den ∧
     (_handle_request_transfer "Rent" "Groceries" (.num ⟨50, 1⟩) ""
        ⟨1000000, 2500000, ⟨300, 1⟩⟩ []
        [⟨"p1", "Rent", 120000, "$1,200.00"⟩, ⟨"p2", "Groceries", 5000, "$50.00"⟩]
        [] none "2025-10-12" none "tid-1" ⟨1000, 1⟩).1.isErr = false) ∧
    ∃ pt, alookup (_handle_request_transfer "Rent" "Groceries" (.num ⟨50, 1⟩) ""
        ⟨1000000, 2500000, ⟨300, 1⟩⟩ []
        [⟨"p1", "Rent", 120000, "$1,200.00"⟩, ⟨"p2", "Groceries", 5000, "$50.00"⟩]
        [] none "2025-10-12" none "tid-1" ⟨1000, 1⟩).2 "tid-1" = some pt ∧
      pt.amount_cents = pyRound ((⟨50, 1⟩ : PyFloat).mulInt 100) ∧
      0 ≤ pt.amount_cents ∧
      (((⟨50, 1⟩ : PyFloat).den : Int) < 200 * (⟨50, 1⟩ : PyFloat).num →
        0 < pt.amount_cents) :=
  ⟨⟨by decide, by decide⟩,
   C8_staged_amount_rounding "Rent" "Groceries" ⟨50, 1⟩ ""
     ⟨1000000, 2500000, ⟨300, 1⟩⟩ []
     [⟨"p1", "Rent", 120000, "$1,200.00"⟩, ⟨"p2", "Groceries", 5000, "$50.00"⟩]
     [] none "2025-10-12" none "tid-1" ⟨1000, 1⟩ (by decide) (by decide)⟩

/-- C5: TTL expiry at confirm — confirming a known pending transfer with
`now - created_at > pending_transfer_ttl` removes the pending entry and
returns the "expired" error (a message distinct from "not found"), after
which the transfer can never be confirmed: any later confirm of the same id,
under any config, clock or remote outcome, returns the "not found" error and
changes nothing. -/
theorem C5_confirm_ttl_expiry (tid : String) (pending : PendingMap)
    (agent_config : AgentConfig) (now : PyFloat) (remote : Except String Unit)
    (t : PendingTransfer) (hl : alookup pending tid = some t)
    (hexp : agent_config.pending_transfer_ttl.lt (now.sub t.created_at) = true) :
    _handle_confirm_transfer tid pending agent_config now remote =
      (.err "This transfer has expired. Please request a new transfer.",
       adel pending tid) ∧
    ("This transfer has expired. Please request a new transfer." ≠
      "No pending transfer found with that ID.") ∧
    ∀ (agent_config' : AgentConfig) (now' : PyFloat)
      (remote' : Except String Unit),
      _handle_confirm_transfer tid (adel pending tid) agent_config' now'
          remote' =
        (.err "No pending transfer found with that ID.", adel pending tid) := by
  refine ⟨?_, by decide, ?_⟩
  · unfold _handle_confirm_transfer
    rw [hl]
    dsimp only
    rw [if_pos hexp]
  · intro agent_config' now' remote'
    unfold _handle_confirm_transfer
    rw [alookup_adel_self]

/-- Witness for C5 at a concrete input: a transfer created at time 0,
confirmed at time 500 with a 300-second TTL. -/
theorem C5_confirm_ttl_expiry_witness :
    alookup [("id1", (⟨"p1", "Rent", .POD, "p2", "Groceries", .POD, 5000,
        "$50.00", ⟨0, 1⟩, some 7, none⟩ : PendingTransfer))] "id1" =
      some ⟨"p1", "Rent", .POD, "p2", "Groceries", .POD, 5000, "$50.00",
        ⟨0, 1⟩, some 7, none⟩ ∧
    (⟨1000000, 2500000, ⟨300, 1⟩⟩ : AgentConfig).pending_transfer_ttl.lt
      ((⟨500, 1⟩ : PyFloat).sub (⟨0, 1⟩ : PyFloat)) = true ∧
    (_handle_confirm_transfer "id1"
        [("id1", ⟨"p1", "Rent", .POD, "p2", "Groceries", .POD, 5000, "$50.00",
          ⟨0, 1⟩, some 7, none⟩)] ⟨1000000, 2500000, ⟨300, 1⟩⟩ ⟨500, 1⟩
        (.ok ()) =
      (.err "This transfer has expired. Please request a new transfer.",
       adel [("id1", ⟨"p1", "Rent", .POD, "p2", "Groceries", .POD, 5000,
         "$50.00", ⟨0, 1⟩, some 7, none⟩)] "id1") ∧
    ("This transfer has expired. Please request a new transfer." ≠
      "No pending transfer found with that ID.") ∧
    ∀ (agent_config' : AgentConfig) (now' : PyFloat)
      (remote' : Except String Unit),
      _handle_confirm_transfer "id1"
          (adel [("id1", ⟨"p1", "Rent", .POD, "p2", "Groceries", .POD, 5000,
            "$50.00", ⟨0, 1⟩, some 7, none⟩)] "id1") agent_config' now'
          remote' =
        (.err "No pending transfer found with that ID.",
         adel [("id1", ⟨"p1", "Rent", .POD, "p2", "Groceries", .POD, 5000,
           "$50.00", ⟨0, 1⟩, some 7, none⟩)] "id1")) :=
  ⟨by decide, by decide,
   C5_confirm_ttl_expiry "id1"
     [("id1", ⟨"p1", "Rent", .POD, "p2", "Groceries", .POD, 5000, "$50.00",
       ⟨0, 1⟩, some 7, none⟩)] ⟨1000000, 2500000, ⟨300, 1⟩⟩ ⟨500, 1⟩ (.ok ())
     ⟨"p1", "Rent", .POD, "p2", "Groceries", .POD, 5000, "$50.00", ⟨0, 1⟩,
       some 7, none⟩ (by decide) (by decide)⟩

/-- C6: Ownership enforcement — for a pending transfer owned by actor `A`, a
cancel through the tool handler by a different non-null actor `B`, or any
button callback (cancel or confirm) pressed by `B`, returns the
permission-style error and leaves the pending table, the tracker and the
audit trail unchanged; a cancel by `A` itself, or a cancel when the caller or
the stored record lacks an actor id, removes the entry and returns
success. -/
theorem C6_ownership_enforcement (tid : String) (pending : PendingMap)
    (t : PendingTransfer) (A B : Int) (action : String)
    (agent_config : AgentConfig) (now : PyFloat)
    (daily_limits : Option SdkDailyLimits.TrackerState) (today : String)
    (remote : Except String Unit) (ts : String)
    (hl : alookup pending tid = some t) :
    (t.user_id = some A → A ≠ B →
      _handle_cancel_transfer tid pending (some B) =
        (.err "You can only cancel your own transfers.", pending, [])) ∧
    (t.user_id = some A → A ≠ B →
      _handle_callback action tid pending B agent_config now daily_limits
          today remote ts =
        (.ownershipAlert, pending, daily_limits, [])) ∧
    (t.user_id = some A →
      _handle_cancel_transfer tid pending (some A) =
        (.success tid, adel pending tid, ["transfer_cancelled"])) ∧
    (t.user_id = none → ∀ u : Option Int,
      _handle_cancel_transfer tid pending u =
        (.success tid, adel pending tid, ["transfer_cancelled"])) ∧
    (_handle_cancel_transfer tid pending none =
      (.success tid, adel pending tid, ["transfer_cancelled"])) := by
  refine ⟨?_, ?_, ?_, ?_, ?_⟩
  · intro hA hAB
    unfold _handle_cancel_transfer
    rw [hl]
    dsimp only
    rw [hA]
    dsimp only
    rw [if_pos hAB]
  · intro hA hAB
    unfold _handle_callback
    rw [hl]
    dsimp only
    rw [hA]
    dsimp only
    rw [if_pos (by simpa using hAB)]
  · intro hA
    unfold _handle_cancel_transfer
    rw [hl]
    dsimp only
    rw [hA]
    dsimp only
    rw [if_neg (fun hc => hc rfl)]
  · intro hA u
    unfold _handle_cancel_transfer
    rw [hl]
    dsimp only
    rw [hA]
    cases u <;> rfl
  · unfold _handle_cancel_transfer
    rw [hl]

/-- Witness for C6 at a concrete input: a transfer owned by actor 7,
cancelled and button-pressed by actor 9, then cancelled by actor 7. -/
theorem C6_ownership_enforcement_witness :
    alookup [("id1", (⟨"p1", "Rent", .POD, "p2", "Groceries", .POD, 5000,
        "$50.00", ⟨0, 1⟩, some 7, none⟩ : PendingTransfer))] "id1" =
      some ⟨"p1", "Rent", .POD, "p2", "Groceries", .POD, 5000, "$50.00",
        ⟨0, 1⟩, some 7, none⟩ ∧
    (PendingTransfer.user_id ⟨"p1", "Rent", .POD, "p2", "Groceries", .POD,
      5000, "$50.00", ⟨0, 1⟩, some 7, none⟩ = some 7) ∧
    ((7 : Int) ≠ 9) ∧
    _handle_cancel_transfer "id1"
        [("id1", ⟨"p1", "Rent", .POD, "p2", "Groceries", .POD, 5000, "$50.00",
          ⟨0, 1⟩, some 7, none⟩)] (some 9) =
      (.err "You can only cancel your own transfers.",
       [("id1", ⟨"p1", "Rent", .POD, "p2", "Groceries", .POD, 5000, "$50.00",
         ⟨0, 1⟩, some 7, none⟩)], []) ∧
    _handle_callback "confirm" "id1"
        [("id1", ⟨"p1", "Rent", .POD, "p2", "Groceries", .POD, 5000, "$50.00",
          ⟨0, 1⟩, some 7, none⟩)] 9 ⟨1000000, 2500000, ⟨300, 1⟩⟩ ⟨10, 1⟩ none
        "2025-10-12" (.ok ()) "ts" =
      (.ownershipAlert,
       [("id1", ⟨"p1", "Rent", .POD, "p2", "Groceries", .POD, 5000, "$50.00",
         ⟨0, 1⟩, some 7, none⟩)], none, []) ∧
    _handle_cancel_transfer "id1"
        [("id1", ⟨"p1", "Rent", .POD, "p2", "Groceries", .POD, 5000, "$50.00",
          ⟨0, 1⟩, some 7, none⟩)] (some 7) =
      (.success "id1",
       adel [("id1", ⟨"p1", "Rent", .POD, "p2", "Groceries", .POD, 5000,
         "$50.00", ⟨0, 1⟩, some 7, none⟩)] "id1", ["transfer_cancelled"]) := by
  have h := C6_ownership_enforcement "id1"
    [("id1", ⟨"p1", "Rent", .POD, "p2", "Groceries", .POD, 5000, "$50.00",
      ⟨0, 1⟩, some 7, none⟩)]
    ⟨"p1", "Rent", .POD, "p2", "Groceries", .POD, 5000, "$50.00", ⟨0, 1⟩,
      some 7, none⟩ 7 9 "confirm" ⟨1000000, 2500000, ⟨300, 1⟩⟩ ⟨10, 1⟩ none
    "2025-10-12" (.ok ()) "ts" (by decide)
  exact ⟨by decide, by decide, by decide,
    h.1 rfl (by decide), h.2.1 rfl (by decide), h.2.2.1 rfl⟩

/-- C7 counterexample: with no pods and two ports "Aaa" and "Aab", the query
"aa" has two substring matches over the combined candidate set, so resolution
correctly fails — but the suggestion attached to the error comes from
`_suggest_pods`, which only searches the PODS: it is the "list all pods"
fallback, not an enumeration of the matching account names, contradicting
the claim that the ambiguous result's suggestion enumerates all matching
account names comma-joined. -/
theorem C7_counterexample :
    _find_account_by_name "aa" []
        [⟨"o1", "Aaa", 10, "$0.10"⟩, ⟨"o2", "Aab", 20, "$0.20"⟩] = none ∧
    accountSubstringMatches "aa" []
        [⟨"o1", "Aaa", 10, "$0.10"⟩, ⟨"o2", "Aab", 20, "$0.20"⟩] =
      [(⟨"o1", "Aaa", 10, "$0.10"⟩, .PORT), (⟨"o2", "Aab", 20, "$0.20"⟩, .PORT)] ∧
    _suggest_pods "aa" [] = " Try using get_all_pods to see available pods." ∧
    _suggest_pods "aa" [] ≠ " Did you mean: Aaa, Aab?" := by
  exact ⟨by decide, by decide, by decide, by decide⟩

/-- C7 (amended): over the combined pods-and-ports candidate set, a
case-insensitive exact name match always wins (pods searched before ports),
even when substring matches also exist; failing that, exactly one
case-insensitive substring match resolves to that account, and zero or two
or more substring matches yield a non-resolving result — the system never
picks among multiple candidates.  The suggestion attached to the
not-found/ambiguous error enumerates the matching POD names comma-joined
when at least one pod matches, and otherwise (including when all the matches
are ports) falls back to the hint to list all pods. -/
theorem C7_resolver_exact_then_unique_substring (name : String)
    (pods ports : List Account) :
    (∀ p : Account,
      pods.find? (fun a => pyLower a.name == pyLower name) = some p →
      _find_account_by_name name pods ports =
        some ⟨p.id, p.name, .POD, p.balance_cents, p.balance⟩) ∧
    (∀ p : Account,
      pods.find? (fun a => pyLower a.name == pyLower name) = none →
      ports.find? (fun a => pyLower a.name == pyLower name) = some p →
      _find_account_by_name name pods ports =
        some ⟨p.id, p.name, .PORT, p.balance_cents, p.balance⟩) ∧
    (∀ (a : Account) (t : AcctType),
      pods.find? (fun a => pyLower a.name == pyLower name) = none →
      ports.find? (fun a => pyLower a.name == pyLower name) = none →
      accountSubstringMatches name pods ports = [(a, t)] →
      _find_account_by_name name pods ports =
        some ⟨a.id, a.name, t, a.balance_cents, a.balance⟩) ∧
    (pods.find? (fun a => pyLower a.name == pyLower name) = none →
      ports.find? (fun a => pyLower a.name == pyLower name) = none →
      (accountSubstringMatches name pods ports).length ≠ 1 →
      _find_account_by_name name pods ports = none) ∧
    (_suggest_pods name pods =
      if (pods.filter (fun p => pyInChars (pyLower name) (pyLower p.name))).isEmpty
      then " Try using get_all_pods to see available pods."
      else " Did you mean: " ++ String.intercalate ", "
        ((pods.filter (fun p => pyInChars (pyLower name) (pyLower p.name))).map
          (fun p => p.name)) ++ "?") := by
  refine ⟨?_, ?_, ?_, ?_, rfl⟩
  · intro p hp
    unfold _find_account_by_name
    dsimp only
    rw [hp]
  · intro p hpod hport
    unfold _find_account_by_name
    dsimp only
    rw [hpod, hport]
  · intro a t hpod hport hsub
    unfold _find_account_by_name
    dsimp only
    rw [hpod, hport]
    dsimp only
    have e : (pods.map (fun p => (p, AcctType.POD)) ++
        ports.map (fun p => (p, AcctType.PORT))).filter
          (fun it => pyInChars (pyLower name) (pyLower it.1.name)) = [(a, t)] := by
      simpa [accountSubstringMatches] using hsub
    rw [e]
  · intro hpod hport hlen
    unfold _find_account_by_name
    dsimp only
    rw [hpod, hport]
    dsimp only
    have e : (pods.map (fun p => (p, AcctType.POD)) ++
        ports.map (fun p => (p, AcctType.PORT))).filter
          (fun it => pyInChars (pyLower name) (pyLower it.1.name)) =
        accountSubstringMatches name pods ports := rfl
    rw [e]
    cases hsub : accountSubstringMatches name pods ports with
    | nil => rfl
    | cons x rest =>
      obtain ⟨a, t⟩ := x
      cases rest with
      | nil =>
        exfalso
        apply hlen
        rw [hsub]
        rfl
      | cons y rest' => rfl

/-- Witness for C7 (amended) at concrete inputs: the query "savings" against
pods ["Savings", "Alice's Savings"] resolves by exact match to "Savings"
even though both pods are substring matches; and the query "aa" against two
ports with no exact match and two substring matches resolves to `none`. -/
theorem C7_resolver_exact_then_unique_substring_witness :
    ([(⟨"p1", "Savings", 100, "$1.00"⟩ : Account),
      ⟨"p2", "Alice's Savings", 200, "$2.00"⟩].find?
        (fun a => pyLower a.name == pyLower "savings") =
      some ⟨"p1", "Savings", 100, "$1.00"⟩) ∧
    _find_account_by_name "savings"
        [⟨"p1", "Savings", 100, "$1.00"⟩, ⟨"p2", "Alice's Savings", 200, "$2.00"⟩]
        [] =
      some ⟨"p1", "Savings", .POD, 100, "$1.00"⟩ ∧
    _find_account_by_name "aa" []
        [⟨"o1", "Aaa", 10, "$0.10"⟩, ⟨"o2", "Aab", 20, "$0.20"⟩] = none :=
  ⟨by decide,
   (C7_resolver_exact_then_unique_substring "savings"
       [⟨"p1", "Savings", 100, "$1.00"⟩, ⟨"p2", "Alice's Savings", 200, "$2.00"⟩]
       []).1 ⟨"p1", "Savings", 100, "$1.00"⟩ (by decide),
   (C7_resolver_exact_then_unique_substring "aa" []
       [⟨"o1", "Aaa", 10, "$0.10"⟩, ⟨"o2", "Aab", 20, "$0.20"⟩]).2.2.2.1
     (by decide) (by decide) (by decide)⟩

end PySequence
